import Mathlib

/-!
Shallow embedding of the rot8 orientation daemon (src/main.rs) and proofs
about its orientation classifier, keyboard policy, main-loop state update,
sample parsing, and X11 backend query/apply behaviour.

Machine floats (`f32`) are modelled by `ℚ`: every constant appearing in the
source (reference vectors, the `0.5` default threshold, `/10` calibration)
is exactly representable in `f32`, and all arithmetic performed on the
claim-relevant inputs is exact, so the rational model agrees with the
floating-point computation there.
-/

namespace Rot8

attribute [local semireducible] Rat.add Rat.mul Rat.sub Rat.inv Rat.ofScientific

/-- The `Backend` enum of main.rs. -/
inductive Backend where
  | Sway
  | Xorg
deriving DecidableEq

/-- The `KeyboardMode` enum of main.rs. -/
inductive KeyboardMode where
  | Integrated
  | Detachable
  | None
deriving DecidableEq

/-- The `Orientation` struct of main.rs (lines 163-169): a reference vector,
the sway transform label (`new_state`), the xrandr rotation label (`x_state`)
and the 9-entry coordinate transformation matrix passed to xinput. -/
structure Orientation where
  vector : ℚ × ℚ
  new_state : String
  x_state : String
  matrix : List String
deriving DecidableEq

/-- First entry of the static `orientations` table (main.rs lines 310-315). -/
def orientNormal : Orientation :=
  { vector := (0, -1), new_state := "normal", x_state := "normal",
    matrix := ["1", "0", "0", "0", "1", "0", "0", "0", "1"] }

/-- Second entry of the static `orientations` table (main.rs lines 316-321). -/
def orient180 : Orientation :=
  { vector := (0, 1), new_state := "180", x_state := "inverted",
    matrix := ["-1", "0", "1", "0", "-1", "1", "0", "0", "1"] }

/-- Third entry of the static `orientations` table (main.rs lines 322-327). -/
def orient90 : Orientation :=
  { vector := (-1, 0), new_state := "90", x_state := "right",
    matrix := ["0", "1", "0", "-1", "0", "1", "0", "0", "1"] }

/-- Fourth entry of the static `orientations` table (main.rs lines 328-333). -/
def orient270 : Orientation :=
  { vector := (1, 0), new_state := "270", x_state := "left",
    matrix := ["0", "-1", "1", "1", "0", "0", "0", "0", "1"] }

/-- The static `orientations` array of main.rs (lines 309-334), in source order. -/
def orientations : List Orientation := [orientNormal, orient180, orient90, orient270]

/-- Decimal digit test, as used by Rust numeric parsing. -/
def isDigit (c : Char) : Bool := '0' ≤ c && c ≤ '9'

/-- Value of a decimal digit list, most significant first. -/
def natOfDigits (cs : List Char) : Nat :=
  cs.foldl (fun acc c => 10 * acc + (c.toNat - '0'.toNat)) 0

/-- All-digit check plus conversion; `none` on an empty or non-digit list. -/
def parseNatDigits (cs : List Char) : Option Nat :=
  if cs ≠ [] && cs.all isDigit then some (natOfDigits cs) else none

/-- Embedding of Rust's `str::parse::<i32>()` (used on raw samples,
main.rs lines 341-342): optional sign, decimal digits, i32 range check. -/
def parseI32 (s : String) : Option Int :=
  match s.toList with
  | '-' :: cs => (parseNatDigits cs).bind fun n =>
      if n ≤ 2 ^ 31 then some (-(n : Int)) else none
  | '+' :: cs => (parseNatDigits cs).bind fun n =>
      if n < 2 ^ 31 then some (n : Int) else none
  | cs => (parseNatDigits cs).bind fun n =>
      if n < 2 ^ 31 then some (n : Int) else none

/-- Core of decimal float parsing: digits with an optional fractional part.
Requires at least one digit overall, exactly as Rust's float grammar does. -/
def parseDecCore (cs : List Char) : Option ℚ :=
  let intPart := cs.takeWhile isDigit
  match cs.dropWhile isDigit with
  | [] => if intPart.isEmpty then none else some (natOfDigits intPart : ℚ)
  | '.' :: frac =>
      if frac.all isDigit && !(intPart.isEmpty && frac.isEmpty) then
        some ((natOfDigits intPart : ℚ) + (natOfDigits frac : ℚ) / 10 ^ frac.length)
      else none
  | _ => none

/-- Embedding of Rust's `str::parse::<f32>()` as used on the threshold string
(main.rs line 374), restricted to plain decimal literals (the only forms the
claims exercise; exotic forms such as exponents or `inf` are out of scope and
map to `none`). Values exercised (`0`, `0.5`, `2.5`) are exact in `f32`. -/
def parseF32 (s : String) : Option ℚ :=
  match s.toList with
  | '-' :: cs => (parseDecCore cs).map Neg.neg
  | '+' :: cs => parseDecCore cs
  | cs => parseDecCore cs

/-- Embedding of `trim_end_matches('\n')`: drop every trailing newline. -/
def trimNl (s : String) : String :=
  String.mk ((s.toList.reverse.dropWhile (· = '\n')).reverse)

/-- Result of `fs::read_to_string` on a sample file: the file content, or a
read failure. -/
inductive ReadResult where
  | ok (s : String)
  | err
deriving DecidableEq

/-- Embedding of one raw-sample acquisition (main.rs lines 339-342):
`fs::read_to_string(path).unwrap()` panics on a read failure (modelled as
`Except.error`), and the content is trimmed then parsed as i32 with
`unwrap_or(0)`, so unparsable content degrades to `0`. -/
def cleanSample : ReadResult → Except String ℚ
  | .err => .error "called unwrap on an Err value: sample file read failed"
  | .ok s => .ok (((parseI32 (trimNl s)).getD 0 : ℤ) : ℚ)

/-- The `flip_y` correction (main.rs lines 350-352): negate Y when enabled. -/
def applyFlip (flip_y : Bool) (y_clean : ℚ) : ℚ :=
  if flip_y then -y_clean else y_clean

/-- Vector normalization (main.rs lines 355-360): multiply by `scale/10`
when a scale was read, else divide by 1. -/
def normalize (x_clean y_clean : ℚ) (scale : Option ℚ) : ℚ × ℚ :=
  match scale with
  | some s => (x_clean * s / 10, y_clean * s / 10)
  | none => (x_clean / 1, y_clean / 1)

/-- The `rotate_90` hack (main.rs lines 363-369): rotate 90 degrees
clockwise, `(x, y) ↦ (y, -x)`. -/
def applyRotate (rotate_90 : Bool) (v : ℚ × ℚ) : ℚ × ℚ :=
  if rotate_90 then (v.2, -v.1) else v

/-- The classifier's selection loop (main.rs lines 371-378): walk the table
in order and stop at the first orientation whose squared distance to the
vector is strictly below the threshold; the threshold string is re-parsed at
every comparison with fallback `0.5`, exactly as in the source. -/
def firstMatch (x y : ℚ) (thresholdStr : String) : List Orientation → Option Orientation
  | [] => none
  | o :: rest =>
      if (x - o.vector.1) ^ 2 + (y - o.vector.2) ^ 2 < (parseF32 thresholdStr).getD (1 / 2) then
        some o
      else firstMatch x y thresholdStr rest

/-- The full per-cycle classification (main.rs lines 344-378): flip, scale,
rotate, then first-match selection; when no orientation qualifies,
`current_orient` keeps its previous value. -/
def classify (x_clean y_clean : ℚ) (scale : Option ℚ) (flip_y rotate_90 : Bool)
    (thresholdStr : String) (current_orient : Orientation) : Orientation :=
  let y1 := applyFlip flip_y y_clean
  let v := normalize x_clean y1 scale
  let v2 := applyRotate rotate_90 v
  (firstMatch v2.1 v2.2 thresholdStr orientations).getD current_orient

/-- Spec-side selection rule, written from the spec's words (section 4.2
step 5): select the first orientation, in the fixed table order, whose
squared Euclidean distance to the vector is strictly less than the
threshold; if none qualifies, retain the previously active orientation. -/
def selectSpec (x y threshold : ℚ) (previous : Orientation) : Orientation :=
  (orientations.find? fun o =>
    decide ((x - o.vector.1) ^ 2 + (y - o.vector.2) ^ 2 < threshold)).getD previous

/-- `human_normal` computation (main.rs lines 344-348). -/
def human_normal (rotate_90 : Bool) : String :=
  if rotate_90 then "90" else "normal"

/-- `integrated_keyboard_state` computation (main.rs lines 385-389). -/
def integrated_keyboard_state (new_state hn : String) : String :=
  if new_state == hn then "enabled" else "disabled"

/-- The `keyboards_attached` probe (main.rs lines 64-87): the Sway branch is
a stub returning false; the Xorg branch returns true when any per-keyboard
`xinput list` probe succeeds (probe outcomes passed as a list of Bools). -/
def keyboards_attached (backend : Backend) (probes : List Bool) : Bool :=
  match backend with
  | .Sway => false
  | .Xorg => probes.any id

/-- The suppression (`noop`) decision (main.rs lines 392-399): in Detachable
mode, suppress when a keyboard is attached and (old is human-normal or new
is not human-normal); in every other mode, never suppress. -/
def noop (mode : KeyboardMode) (attached : Bool) (old_state new_state hn : String) : Bool :=
  match mode with
  | .Detachable => attached && (old_state == hn || new_state != hn)
  | _ => false

/-- Result of one main-loop iteration: the two state variables plus whether
the cycle was suppressed and whether the backend apply ran. -/
structure IterationResult where
  old_state : String
  current_orient : Orientation
  suppressed : Bool
  applied : Bool
deriving DecidableEq

/-- One iteration of the main loop's decision and state update
(main.rs lines 339-463), with the sensor/backend inputs passed in: classify,
compare against `old_state`, consult the keyboard policy, and update state.
Note the source sets `old_state = new_state` (line 462) whether or not the
rotation was suppressed. -/
def loopIteration (backend : Backend) (probes : List Bool) (mode : KeyboardMode)
    (rotate_90 flip_y : Bool) (scale : Option ℚ) (thresholdStr : String)
    (x_clean y_clean : ℚ) (old_state : String) (current_orient : Orientation) :
    IterationResult :=
  let cur := classify x_clean y_clean scale flip_y rotate_90 thresholdStr current_orient
  let new_state := cur.new_state
  if new_state ≠ old_state then
    let hn := human_normal rotate_90
    let sup := noop mode (keyboards_attached backend probes) old_state new_state hn
    { old_state := new_state, current_orient := cur, suppressed := sup, applied := !sup }
  else
    { old_state := old_state, current_orient := cur, suppressed := false, applied := false }

/-- Split a character list on newline characters, as Rust's `split("\n")`
does on the raw xrandr output (main.rs line 128). -/
def splitNl : List Char → List (List Char)
  | [] => [[]]
  | '\n' :: cs => [] :: splitNl cs
  | c :: cs =>
      match splitNl cs with
      | [] => [[c]]
      | l :: ls => (c :: l) :: ls

/-- Drop an exact prefix from a character list, or fail. -/
def dropPre : List Char → List Char → Option (List Char)
  | [], cs => some cs
  | _, [] => none
  | p :: ps, c :: cs => if p = c then dropPre ps cs else none

/-- The fixed literal tail of the xrandr output pattern (main.rs line 125). -/
def xrandrModesLit : List Char := "(normal left inverted right x axis y axis)".toList

/-- The four alternatives of the optional rotation-word capture group of the
xrandr pattern, in the pattern's order; each includes its trailing space. -/
def rotWords : List (List Char) := ["normal ".toList, "inverted ".toList, "left ".toList, "right ".toList]

/-- Check the mandatory tail of the xrandr pattern after the optional group:
the parenthesised literal, a space, then at least one further character. -/
def tailMatches (cs : List Char) : Bool :=
  match dropPre xrandrModesLit cs with
  | some (' ' :: rest) => !rest.isEmpty
  | _ => false

/-- Try the optional capture group then the mandatory tail, preferring (as
the regex engine does for a greedy `?`) a present group over an absent one,
alternatives in pattern order. Returns the captured text (with its trailing
space, exactly as `captures.get(1)` yields it) when the group matched. -/
def tryGroup (cs : List Char) : Option (Option String) :=
  match rotWords.find? (fun w => ((dropPre w cs).map tailMatches).getD false) with
  | some w => some (some (String.mk w))
  | none => if tailMatches cs then some none else none

/-- Lazy scan for the second `.+? ` of the xrandr pattern: at each space, try
to finish the match there first (non-greedy `+?`), else extend. -/
def goB : List Char → Option (Option String)
  | [] => none
  | ' ' :: rest => ((tryGroup rest).orElse fun _ => goB rest)
  | _ :: rest => goB rest

/-- The second `.+? ` of the xrandr pattern: one mandatory character, then
the lazy scan. -/
def stageB : List Char → Option (Option String)
  | [] => none
  | _ :: rest => goB rest

/-- Lazy scan for the first `.+? ` of the xrandr pattern. -/
def goA : List Char → Option (Option String)
  | [] => none
  | ' ' :: rest => ((stageB rest).orElse fun _ => goA rest)
  | _ :: rest => goA rest

/-- The first `.+? ` of the xrandr pattern: one mandatory character, then
the lazy scan. -/
def stageA : List Char → Option (Option String)
  | [] => none
  | _ :: rest => goA rest

/-- Match one xrandr output line against the anchored pattern of main.rs
line 124-127 (display name escaped, so matched literally): returns `none`
when the line does not match, `some g` when it matches with `g` the text
captured by the optional rotation-word group. -/
def matchLine (display : String) (line : List Char) : Option (Option String) :=
  match dropPre (display ++ " connected ").toList line with
  | some rest => stageA rest
  | none => none

/-- Scan the xrandr output lines in order (main.rs lines 128-140): the first
matching line yields its captured rotation word, or "normal" when the group
is absent; if no line matches, report the display as not found. -/
def rotationFromLines (display : String) : List (List Char) → Except String String
  | [] => .error ("Unable to determine rotation state: display " ++ display ++
      " not found in xrandr output")
  | l :: rest =>
      match matchLine display l with
      | some (some w) => .ok w
      | some none => .ok "normal"
      | none => rotationFromLines display rest

/-- Embedding of `get_window_server_rotation_state` for the Xorg backend
(main.rs lines 116-147), over the captured text of the `xrandr` command. -/
def getRotationStateXorg (display : String) (raw : String) : Except String String :=
  rotationFromLines display (splitNl raw.toList)

/-- The xrandr argv issued by the Xorg apply step (main.rs lines 430-438). -/
def xrandrApplyArgs (display : String) (o : Orientation) : List String :=
  ["--output", display, "--rotate", o.x_state]

/-- The xinput argv issued by the Xorg apply step (main.rs lines 440-448). -/
def xinputApplyArgs (touchscreen : String) (o : Orientation) : List String :=
  ["set-prop", touchscreen, "Coordinate Transformation Matrix"] ++ o.matrix

/-- Captured xrandr report in which the display "eDP-1" is connected and its
line carries no explicit rotation word before the parenthesised literal. -/
def sampleXrandrNoRotation : String :=
  "Screen 0: minimum 320 x 200, current 1920 x 1080, maximum 8192 x 8192\neDP-1 connected primary 1920x1080+0+0 (normal left inverted right x axis y axis) 344mm x 194mm\nHDMI-1 disconnected (normal left inverted right x axis y axis)"

/-- Captured xrandr report in which the display name "eDP-1" never appears. -/
def sampleXrandrOtherDisplay : String :=
  "Screen 0: minimum 320 x 200, current 1920 x 1080, maximum 8192 x 8192\nHDMI-1 connected primary 1920x1080+0+0 (normal left inverted right x axis y axis) 509mm x 286mm"

theorem parse_half : parseF32 "0.5" = some (1 / 2) := by decide

theorem firstMatch_eq_find (x y : ℚ) (ts : String) (l : List Orientation) :
    firstMatch x y ts l = l.find? fun o =>
      decide ((x - o.vector.1) ^ 2 + (y - o.vector.2) ^ 2 < (parseF32 ts).getD (1 / 2)) := by
  induction l with
  | nil => rfl
  | cons o rest ih =>
      by_cases h : (x - o.vector.1) ^ 2 + (y - o.vector.2) ^ 2 < (parseF32 ts).getD (1 / 2)
      · rw [firstMatch, if_pos h, List.find?_cons_of_pos _ (by simpa using h)]
      · rw [firstMatch, if_neg h, List.find?_cons_of_neg _ (by simpa using h), ih]

theorem classify_fixpoint (x y : ℚ) (sc : Option ℚ) (f r : Bool) (ts : String)
    (cur : Orientation) :
    classify x y sc f r ts (classify x y sc f r ts cur) = classify x y sc f r ts cur := by
  unfold classify
  cases h : firstMatch (applyRotate r (normalize x (applyFlip f y) sc)).1
      (applyRotate r (normalize x (applyFlip f y) sc)).2 ts orientations <;> simp [h]

/-- C1: the claim asserts that a suppressed cycle leaves the recorded state
(old_state, current_orient) unchanged.  At the concrete input below
(Detachable mode, keyboard attached, candidate Inverted, state "normal") the
cycle is suppressed, yet the loop records old_state = "180" and
current_orient = the Inverted entry: the source updates old_state at
main.rs line 462 regardless of suppression. -/
theorem C1_counterexample :
    (loopIteration .Xorg [true] .Detachable false false none "0.5" 0 1 "normal"
        orientNormal).suppressed = true
    ∧ (loopIteration .Xorg [true] .Detachable false false none "0.5" 0 1 "normal"
        orientNormal).old_state = "180"
    ∧ (loopIteration .Xorg [true] .Detachable false false none "0.5" 0 1 "normal"
        orientNormal).old_state ≠ "normal"
    ∧ (loopIteration .Xorg [true] .Detachable false false none "0.5" 0 1 "normal"
        orientNormal).current_orient = orient180 := by
  refine ⟨by decide, by decide, by decide, by decide⟩

/-- C1 (amended): in every suppressed cycle the backend apply is skipped,
but the controller still records the candidate: old_state is set to the
candidate's label (and current_orient to the candidate), so re-running the
iteration on the resulting state with the same sensor input applies nothing
and suppresses nothing (the candidate is treated as no change, not as a
pending change). -/
theorem C1_suppressed_records_candidate (b : Backend) (ps : List Bool)
    (mode : KeyboardMode) (r f : Bool) (sc : Option ℚ) (ts : String) (x y : ℚ)
    (old : String) (cur : Orientation)
    (hsup : (loopIteration b ps mode r f sc ts x y old cur).suppressed = true) :
    (loopIteration b ps mode r f sc ts x y old cur).applied = false
    ∧ (loopIteration b ps mode r f sc ts x y old cur).old_state
        = (classify x y sc f r ts cur).new_state
    ∧ (loopIteration b ps mode r f sc ts x y
        (loopIteration b ps mode r f sc ts x y old cur).old_state
        (loopIteration b ps mode r f sc ts x y old cur).current_orient).applied = false
    ∧ (loopIteration b ps mode r f sc ts x y
        (loopIteration b ps mode r f sc ts x y old cur).old_state
        (loopIteration b ps mode r f sc ts x y old cur).current_orient).suppressed = false := by
  by_cases h : (classify x y sc f r ts cur).new_state ≠ old
  · simp only [loopIteration, if_pos h] at hsup ⊢
    rw [classify_fixpoint]
    refine ⟨by simp [hsup], trivial, by simp, by simp⟩
  · simp only [loopIteration, if_neg h] at hsup
    exact absurd hsup (by simp)

theorem C1_suppressed_records_candidate_witness :
    (loopIteration .Xorg [true] .Detachable false false none "0.5" 0 1 "normal"
        orientNormal).suppressed = true
    ∧ (loopIteration .Xorg [true] .Detachable false false none "0.5" 0 1 "normal"
        orientNormal).applied = false := by
  have h : (loopIteration .Xorg [true] .Detachable false false none "0.5" 0 1 "normal"
      orientNormal).suppressed = true := by decide
  exact ⟨h, (C1_suppressed_records_candidate .Xorg [true] .Detachable false false none
    "0.5" 0 1 "normal" orientNormal h).1⟩

/-- C3: in Detachable mode a candidate is suppressed iff a keyboard is
attached and (old orientation is human-normal or new orientation is not
human-normal); the claim's two concrete instances hold (old=normal,
new=90/RotatedLeft, attached, suppressed; old=90, new=normal, attached, not
suppressed); in Integrated and None modes nothing is ever suppressed. -/
theorem C3_detachable_suppression :
    (∀ (att : Bool) (old nw hn : String),
      noop .Detachable att old nw hn = true ↔ att = true ∧ (old = hn ∨ nw ≠ hn))
    ∧ noop .Detachable true "normal" "90" "normal" = true
    ∧ noop .Detachable true "90" "normal" "normal" = false
    ∧ (∀ (att : Bool) (old nw hn : String),
      noop .Integrated att old nw hn = false ∧ noop .None att old nw hn = false) := by
  refine ⟨?_, by decide, by decide, ?_⟩
  · intro att old nw hn
    simp [noop, Bool.and_eq_true, Bool.or_eq_true, beq_iff_eq, bne_iff_ne]
  · intro att old nw hn
    exact ⟨rfl, rfl⟩

/-- C6: the flip_y flag negates only the Y component: for every raw sample,
scale, rotate flag, threshold string and previous orientation, classifying
(x, y) with flip_y on equals classifying (x, -y) with flip_y off. -/
theorem C6_flip_y_negates_y (x y : ℚ) (sc : Option ℚ) (r : Bool) (ts : String)
    (cur : Orientation) :
    classify x y sc true r ts cur = classify x (-y) sc false r ts cur := by
  simp [classify, applyFlip]

/-- C7: in Integrated mode rotation is never suppressed; the keyboard action
is "enabled" exactly when the new orientation label equals human_normal and
"disabled" otherwise; human_normal is the label "90" of the orientation with
reference vector (-1, 0) (the 90-degree / RotatedLeft entry) when the
rotate_90 hack is set and "normal" (the Normal entry's label) otherwise. -/
theorem C7_integrated_policy :
    (∀ (att : Bool) (old nw hn : String), noop .Integrated att old nw hn = false)
    ∧ (∀ nw hn : String,
        (integrated_keyboard_state nw hn = "enabled" ↔ nw = hn)
        ∧ (integrated_keyboard_state nw hn = "disabled" ↔ nw ≠ hn))
    ∧ human_normal true = orient90.new_state
    ∧ human_normal false = orientNormal.new_state
    ∧ (orientations.find? fun o => o.new_state == human_normal true)
        = some orient90
    ∧ orient90.vector = (-1, 0)
    ∧ integrated_keyboard_state "90" "normal" = "disabled"
    ∧ integrated_keyboard_state "normal" "normal" = "enabled" := by
  refine ⟨fun att old nw hn => rfl, ?_, rfl, rfl, by decide, by decide, by decide, by decide⟩
  intro nw hn
  by_cases h : nw = hn
  · subst h
    simp [integrated_keyboard_state]
  · have hb : (nw == hn) = false := by simp [h]
    simp [integrated_keyboard_state, hb, h]

/-- C2: the classifier selects the first orientation, in the fixed table
order Normal (0,-1), Inverted (0,1), then (-1,0), then (1,0), whose squared
Euclidean distance to the input vector is strictly less than the (parsed)
threshold, and retains the previously active orientation when none
qualifies: `classify` with no corrections coincides with the spec-side
selection rule `selectSpec` on every input vector, threshold string and
previous orientation, and the table order is as claimed. -/
theorem C2_first_match_selection :
    (∀ (x y : ℚ) (ts : String) (cur : Orientation),
      classify x y none false false ts cur
        = selectSpec x y ((parseF32 ts).getD (1 / 2)) cur)
    ∧ orientations.map (fun o => o.vector) = [(0, -1), (0, 1), (-1, 0), (1, 0)] := by
  refine ⟨?_, by decide⟩
  intro x y ts cur
  simp only [classify, selectSpec, applyFlip, applyRotate, normalize, if_neg Bool.false_ne_true,
    firstMatch_eq_find, div_one]

/-- C5: the rotate_90 hack applies the 90-degree clockwise rotation
(x, y) to (y, -x) to the normalized vector before distance comparison (for
every sample and scale, classifying (x, y) with rotate_90 on equals
classifying (y, -x) with rotate_90 off), and the normalized input vector
(0, -1) with rotate_90 on classifies as the table entry with reference
vector (-1, 0), for any previous orientation. -/
theorem C5_rotate_90 :
    (∀ (x y : ℚ) (sc : Option ℚ) (ts : String) (cur : Orientation),
      classify x y sc false true ts cur = classify y (-x) sc false false ts cur)
    ∧ (∀ cur : Orientation,
      classify 0 (-1) none false true "0.5" cur = orient90
      ∧ orient90.vector = (-1, 0)) := by
  constructor
  · intro x y sc ts cur
    cases sc <;>
      simp [classify, applyFlip, applyRotate, normalize, div_one, neg_div, neg_mul]
  · intro cur
    refine ⟨?_, by decide⟩
    show (firstMatch (-1) (-0) "0.5" orientations).getD cur = orient90
    have h : firstMatch (-1) (-0) "0.5" orientations = some orient90 := by decide
    rw [h, Option.getD_some]

/-- C10: a threshold CLI string that fails to parse as a float makes every
distance comparison silently fall back to 0.5: classification with an
unparsable threshold string equals classification with the string "0.5"
(which parses to exactly 1/2) on all inputs, so a bad threshold never
aborts a cycle. -/
theorem C10_threshold_fallback (ts : String) (hbad : parseF32 ts = none) :
    (∀ (x y : ℚ) (sc : Option ℚ) (f r : Bool) (cur : Orientation),
      classify x y sc f r ts cur = classify x y sc f r "0.5" cur)
    ∧ parseF32 "0.5" = some (1 / 2) := by
  refine ⟨?_, parse_half⟩
  intro x y sc f r cur
  simp only [classify, firstMatch_eq_find, hbad, parse_half, Option.getD_some, Option.getD_none]

theorem C10_threshold_fallback_witness :
    parseF32 "abc" = none
    ∧ classify 0 1 none false false "abc" orientNormal
        = classify 0 1 none false false "0.5" orientNormal := by
  have h : parseF32 "abc" = none := by decide
  exact ⟨h, (C10_threshold_fallback "abc" h).1 0 1 none false false orientNormal⟩

/-- C4: the claim asserts the round-trip identity for any threshold at or
above 0; it fails at threshold "0" (parsed value 0, which is at or above 0):
feeding the Inverted entry's own reference vector (0, 1) classifies back to
the previous orientation (here Normal), because the strict comparison
`d < 0` never holds; and it also fails at threshold "2.5": feeding the
(-1, 0) entry's own reference vector classifies as Normal, whose squared
distance 2 already beats the threshold first in table order. -/
theorem C4_counterexample :
    parseF32 "0" = some 0
    ∧ classify 0 1 none false false "0" orientNormal = orientNormal
    ∧ orientNormal ≠ orient180
    ∧ parseF32 "2.5" = some (5 / 2)
    ∧ classify (-1) 0 none false false "2.5" orient180 = orientNormal
    ∧ orientNormal ≠ orient90 := by decide

/-- C4 (amended): for each of the 4 static orientations, feeding that
orientation's own reference vector to the classifier with no scale, no
flip_y, no rotate_90, and any threshold whose parsed value t satisfies
0 < t ≤ 2, returns that same orientation, whatever the previous
orientation was. -/
theorem C4_roundtrip_amended (ts : String) (t : ℚ) (hp : parseF32 ts = some t)
    (h0 : 0 < t) (h2 : t ≤ 2) (o : Orientation) (ho : o ∈ orientations)
    (cur : Orientation) :
    classify o.vector.1 o.vector.2 none false false ts cur = o := by
  simp only [orientations, List.mem_cons, List.not_mem_nil, or_false] at ho
  rcases ho with rfl | rfl | rfl | rfl <;>
    simp only [classify, applyFlip, applyRotate, normalize, div_one,
      if_neg Bool.false_ne_true, orientations, firstMatch, hp, Option.getD_some,
      orientNormal, orient180, orient90, orient270] <;>
    norm_num <;>
    split_ifs <;>
    first
      | rfl
      | (exfalso; linarith)

theorem C4_roundtrip_amended_witness :
    parseF32 "0.5" = some (1 / 2)
    ∧ (0 : ℚ) < 1 / 2
    ∧ (1 : ℚ) / 2 ≤ 2
    ∧ orient180 ∈ orientations
    ∧ classify orient180.vector.1 orient180.vector.2 none false false "0.5" orientNormal
        = orient180 :=
  ⟨parse_half, by norm_num, by norm_num, by decide,
    C4_roundtrip_amended "0.5" (1 / 2) parse_half (by norm_num) (by norm_num)
      orient180 (by decide) orientNormal⟩

/-- C8: the claim asserts that an unreadable sample file degrades to the
value 0 and the cycle continues; in the source the read result is
immediately unwrapped (main.rs lines 339-340), so a read failure panics
instead of producing 0. -/
theorem C8_counterexample : cleanSample ReadResult.err ≠ Except.ok 0 :=
  fun hcontra => Except.noConfusion hcontra

/-- C8 (amended): content that fails to parse as an i32 degrades to the
sample value 0 and the cycle goes on, but an unreadable sample file makes
the unwrap panic (modelled as an error) rather than degrade to 0. -/
theorem C8_unparsable_degrades (s : String) (hbad : parseI32 (trimNl s) = none) :
    cleanSample (ReadResult.ok s) = Except.ok 0
    ∧ ∃ e, cleanSample ReadResult.err = Except.error e :=
  ⟨by simp [cleanSample, hbad], ⟨_, rfl⟩⟩

theorem C8_unparsable_degrades_witness :
    parseI32 (trimNl "zz") = none
    ∧ cleanSample (ReadResult.ok "zz") = Except.ok 0 := by
  have h : parseI32 (trimNl "zz") = none := by decide
  exact ⟨h, (C8_unparsable_degrades "zz" h).1⟩

/-- C9: the claim pairs the xrandr argument `--rotate left` with the touch
matrix [0,1,0,-1,0,1,0,0,1] for the orientation whose reference vector is
(-1, 0) (the spec's RotatedLeft). In the source that orientation's xrandr
label is "right", so apply issues `--rotate right` together with that
matrix; the entry labelled "left" is the (1, 0) one and carries the
different matrix [0,-1,1,1,0,0,0,0,1]. -/
theorem C9_counterexample :
    (orientations.find? fun o => o.vector == ((-1 : ℚ), (0 : ℚ))) = some orient90
    ∧ xrandrApplyArgs "eDP-1" orient90 = ["--output", "eDP-1", "--rotate", "right"]
    ∧ orient90.matrix = ["0", "1", "0", "-1", "0", "1", "0", "0", "1"]
    ∧ orient90.x_state ≠ "left"
    ∧ orient270.x_state = "left"
    ∧ orient270.matrix ≠ ["0", "1", "0", "-1", "0", "1", "0", "0", "1"] := by decide

/-- C9 (amended): on the X11 backend, querying current rotation on a report
whose matching display line carries no rotation word returns "normal", and
returns an error when the display name never appears; a sample classifying
to the (-1, 0) orientation triggers an apply issuing `--rotate right`
together with the touch coordinate transformation matrix
[0,1,0,-1,0,1,0,0,1]. -/
theorem C9_x11_behaviour :
    getRotationStateXorg "eDP-1" sampleXrandrNoRotation = Except.ok "normal"
    ∧ getRotationStateXorg "eDP-1" sampleXrandrOtherDisplay
        = Except.error
          "Unable to determine rotation state: display eDP-1 not found in xrandr output"
    ∧ (∀ cur : Orientation, classify (-1) 0 none false false "0.5" cur = orient90)
    ∧ xrandrApplyArgs "eDP-1" orient90 = ["--output", "eDP-1", "--rotate", "right"]
    ∧ xinputApplyArgs "ELAN0732:00 04F3:22E1" orient90
        = ["set-prop", "ELAN0732:00 04F3:22E1", "Coordinate Transformation Matrix",
           "0", "1", "0", "-1", "0", "1", "0", "0", "1"] := by
  refine ⟨rfl, rfl, ?_, by decide, by decide⟩
  intro cur
  show (firstMatch (-1 / 1) (0 / 1) "0.5" orientations).getD cur = orient90
  have h : firstMatch (-1 / 1) (0 / 1) "0.5" orientations = some orient90 := by decide
  rw [h, Option.getD_some]

end Rot8
